import Mathlib

/-!
# Shallow embedding of the dexgo Dexcom Share client (`dexcom.go`)

This file embeds the single Go source file of the `dierksen/dexgo`
repository into Lean 4 and proves properties of the embedding.

Modelling decisions:
* Machine time (`time.Time` built by `time.UnixMilli`) is modelled as an
  integer count of milliseconds since the Unix epoch (`GoTime`).
* The HTTP layer (`request`, built on `http.Post` + `json.Unmarshal`) is
  modelled by a `Transport`: a function from a `Call` (endpoint path plus
  JSON request payload) to either a transport error or an already
  JSON-parsed response body.  `json.Unmarshal` into the wrong shape is a
  decode error, as in the Go code.
* Go nil-pointer dereference (`*d.accountId`, `*d.sessionId` on a nil
  pointer) is modelled explicitly as the `Outcome.panics` result.
* Each stateful operation returns `(result, new state, list of calls
  issued)`, so that call counts and call order are provable.
-/

namespace Dexgo

/-- `const dexcomBaseUrl` of `dexcom.go`. -/
def dexcomBaseUrl : String := "https://share2.dexcom.com/ShareWebServices/Services"

/-- `const dexcomLoginEndpoint` of `dexcom.go`. -/
def dexcomLoginEndpoint : String := "General/LoginPublisherAccountById"

/-- `const dexcomAuthEndpoint` of `dexcom.go`. -/
def dexcomAuthEndpoint : String := "General/AuthenticatePublisherAccount"

/-- `const dexcomGetLatestEndpoint` of `dexcom.go`. -/
def dexcomGetLatestEndpoint : String := "Publisher/ReadPublisherLatestGlucoseValues"

/-- `const dexcomApplicationId` of `dexcom.go`. -/
def dexcomApplicationId : String := "d89443d2-327c-4a6f-89e5-496bbb0317db"

/-- `time.Time` values produced by this client, modelled as milliseconds
since the Unix epoch (UTC). -/
structure GoTime where
  millis : Int
deriving DecidableEq, Repr

/-- `time.UnixMilli`: the instant `ms` milliseconds after the Unix epoch. -/
def timeUnixMilli (ms : Int) : GoTime := ⟨ms⟩

/-- `type GlucoseReading struct` of `dexcom.go`. -/
structure GlucoseReading where
  Time : GoTime
  Value : Int
  Trend : String
deriving DecidableEq, Repr

/-- `type RawReading struct` of `dexcom.go` (the `Time` field carries json
tag `"WT"`). -/
structure RawReading where
  Time : String
  Trend : String
  Value : Int
deriving DecidableEq, Repr

/-- The three JSON request payload shapes of `dexcom.go`
(`VerifyPayload`, `AuthPayload`, `GetReadingsPayload`). -/
inductive Payload where
  | verify (accountName password applicationId : String)
  | auth (accountId password applicationId : String)
  | getReadings (sessionId : String) (minutes maxCount : Int)
deriving DecidableEq, Repr

/-- One HTTP POST issued by `request`: the endpoint path suffix and the
JSON body. -/
structure Call where
  endPoint : String
  payload : Payload
deriving DecidableEq, Repr

/-- A JSON-decoded response body: the vendor answers either with a bare
JSON string or with an array of raw readings. -/
inductive Body where
  | str (s : String)
  | readings (rs : List RawReading)
deriving DecidableEq, Repr

/-- The HTTP transport underneath `http.Post`: every call either fails
with a transport error or yields a response body. -/
def Transport := Call → Except String Body

/-- `request` specialised to `json.Unmarshal` into a `*string` target
(used by `fetchAccountId` and `auth`): a body that is not a bare JSON
string is a decode error. -/
def requestStr (t : Transport) (endPoint : String) (p : Payload) : Except String String :=
  match t ⟨endPoint, p⟩ with
  | .error e => .error e
  | .ok (.str s) => .ok s
  | .ok (.readings _) => .error "json: cannot unmarshal array into Go value of type string"

/-- `request` specialised to `json.Unmarshal` into a `*[]RawReading`
target (used by `GetReadings`). -/
def requestReadings (t : Transport) (endPoint : String) (p : Payload) :
    Except String (List RawReading) :=
  match t ⟨endPoint, p⟩ with
  | .error e => .error e
  | .ok (.readings rs) => .ok rs
  | .ok (.str _) => .error "json: cannot unmarshal string into Go value of type []dexgo.RawReading"

/-- `type Dexcom struct` of `dexcom.go`: the nilable pointers
`accountId *string` and `sessionId *string` become `Option String`. -/
structure Dexcom where
  username : String
  password : String
  accountId : Option String
  sessionId : Option String
deriving DecidableEq, Repr

/-- `func New(username string, password string) Dexcom`. -/
def New (username password : String) : Dexcom :=
  { username := username, password := password, accountId := none, sessionId := none }

/-- The result of running a Go function that can return normally, return a
non-nil error, or panic (nil-pointer dereference). -/
inductive Outcome (α : Type) where
  | ok (a : α)
  | error (e : String)
  | panics (msg : String)
deriving DecidableEq, Repr

/-- `func (d *Dexcom) fetchAccountId() error`: POSTs a `VerifyPayload`
(accountName, password, applicationId) to `dexcomAuthEndpoint` and, on
success, stores the returned bare string in `d.accountId`.  Returns
`(error result, new state, calls issued)`. -/
def fetchAccountId (t : Transport) (d : Dexcom) :
    Except String Unit × Dexcom × List Call :=
  let payload := Payload.verify d.username d.password dexcomApplicationId
  let call : Call := ⟨dexcomAuthEndpoint, payload⟩
  match requestStr t dexcomAuthEndpoint payload with
  | .error e => (.error e, d, [call])
  | .ok accountId => (.ok (), { d with accountId := some accountId }, [call])

/-- `func (d *Dexcom) auth() error`: dereferences `*d.accountId` (a panic
when the pointer is nil), POSTs an `AuthPayload` (accountId, password,
applicationId) to `dexcomLoginEndpoint` and, on success, stores the
returned bare string in `d.sessionId`. -/
def auth (t : Transport) (d : Dexcom) :
    Outcome Unit × Dexcom × List Call :=
  match d.accountId with
  | none => (.panics "runtime error: invalid memory address or nil pointer dereference", d, [])
  | some aid =>
    let payload := Payload.auth aid d.password dexcomApplicationId
    let call : Call := ⟨dexcomLoginEndpoint, payload⟩
    match requestStr t dexcomLoginEndpoint payload with
    | .error e => (.error e, d, [call])
    | .ok sessionId => (.ok (), { d with sessionId := some sessionId }, [call])

/-- The capture of `timestampRegex = Date\((\d*)\)` when the regex matches
at the head of `cs`: after the literal `Date(`, the (greedy, possibly
empty) digit run must be followed by `)`.  Backtracking cannot help the
Go regex here because a digit surrendered by `\d*` can never equal `)`,
so matching the maximal digit run is exact. -/
def matchDateAt (cs : List Char) : Option (List Char) :=
  if cs.take 5 = ['D', 'a', 't', 'e', '('] then
    let rest := cs.drop 5
    match rest.dropWhile Char.isDigit with
    | [] => none
    | c :: _ => if c = ')' then some (rest.takeWhile Char.isDigit) else none
  else none

/-- `timestampRegex.FindStringSubmatch`: the capture group of the leftmost
match of `Date\((\d*)\)`, scanning positions left to right (the Go regex
is unanchored). -/
def findDate : List Char → Option (List Char)
  | [] => none
  | c :: cs =>
    match matchDateAt (c :: cs) with
    | some ds => some ds
    | none => findDate cs

/-- The numeric value of the character `c` as a decimal digit
(`c.toNat - 48`). -/
def digitVal (c : Char) : Nat := c.toNat - 48

/-- The base-10 value of a most-significant-first digit-character list;
this is the value `strconv.Atoi` computes on an all-digit string. -/
def digitsVal (ds : List Char) : Nat :=
  ds.foldl (fun a c => a * 10 + digitVal c) 0

/-- `math.MaxInt64`, the largest value `strconv.Atoi` accepts on a 64-bit
platform. -/
def intMax : Nat := 9223372036854775807

/-- `strconv.Atoi` restricted to the strings `timestampRegex` can capture
(runs of decimal digits, possibly empty): the empty string is a syntax
error and a value beyond `math.MaxInt64` is a range error; any other
digit run parses to its base-10 value. -/
def atoiDigits (ds : List Char) : Except String Int :=
  if ds = [] then .error "strconv.Atoi: parsing: invalid syntax"
  else if intMax < digitsVal ds then .error "strconv.Atoi: value out of range"
  else .ok (digitsVal ds)

/-- `func convertTimestamp(wt string) (time.Time, error)`: extract the
capture of `timestampRegex` (fewer than two entries in the submatch slice
means no match), run `strconv.Atoi` on it, and build the instant with
`time.UnixMilli`. -/
def convertTimestamp (wt : String) : Except String GoTime :=
  match findDate wt.data with
  | none => .error ("failed to parse timestamp: " ++ wt)
  | some ds =>
    match atoiDigits ds with
    | .error _ => .error ("invalid timestamp: " ++ String.mk ds)
    | .ok n => .ok (timeUnixMilli n)

/-- The conversion loop of `GetReadings` (lines 135–147): convert each raw
reading in vendor order, stopping at the first timestamp error. -/
def convertReadings : List RawReading → Except String (List GlucoseReading)
  | [] => .ok []
  | rv :: rest =>
    match convertTimestamp rv.Time with
    | .error e => .error e
    | .ok ts =>
      match convertReadings rest with
      | .error e => .error e
      | .ok rs => .ok ({ Time := ts, Value := rv.Value, Trend := rv.Trend } :: rs)

/-- The tail of `GetReadings` after the handshake block (lines 125–148):
dereference `*d.sessionId` (a panic when nil), POST the
`GetReadingsPayload` to `dexcomGetLatestEndpoint`, decode the raw array
and convert it.  `tr` is the trace of calls already issued by the
handshake. -/
def GetReadingsFetch (t : Transport) (d : Dexcom) (minutes numReadings : Int)
    (tr : List Call) : Outcome (List GlucoseReading) × Dexcom × List Call :=
  match d.sessionId with
  | none => (.panics "runtime error: invalid memory address or nil pointer dereference", d, tr)
  | some sid =>
    let payload := Payload.getReadings sid minutes numReadings
    let call : Call := ⟨dexcomGetLatestEndpoint, payload⟩
    match requestReadings t dexcomGetLatestEndpoint payload with
    | .error e => (.error e, d, tr ++ [call])
    | .ok rawValues =>
      match convertReadings rawValues with
      | .error e => (.error e, d, tr ++ [call])
      | .ok readings => (.ok readings, d, tr ++ [call])

/-- `func (d *Dexcom) GetReadings(minutes int, numReadings int)`
(lines 118–149).  When `d.sessionId` is nil it runs the handshake:
`fetchAccountId` only when `d.accountId` is nil, then `auth` — both with
their returned errors discarded, exactly as in the source, where the
calls on lines 121 and 123 ignore the `error` results. -/
def GetReadings (t : Transport) (d : Dexcom) (minutes numReadings : Int) :
    Outcome (List GlucoseReading) × Dexcom × List Call :=
  if d.sessionId = none then
    let step1 : Dexcom × List Call :=
      if d.accountId = none then
        let r := fetchAccountId t d
        (r.2.1, r.2.2)
      else (d, [])
    match auth t step1.1 with
    | (.panics m, d2, tr2) => (.panics m, d2, step1.2 ++ tr2)
    | (_, d2, tr2) => GetReadingsFetch t d2 minutes numReadings (step1.2 ++ tr2)
  else
    GetReadingsFetch t d minutes numReadings []

/-- A call to one of the two login-related endpoints. -/
def isLoginCall (c : Call) : Bool :=
  c.endPoint = dexcomAuthEndpoint || c.endPoint = dexcomLoginEndpoint

/-- A call to the data-fetch endpoint. -/
def isDataCall (c : Call) : Bool :=
  c.endPoint = dexcomGetLatestEndpoint

/-- A call carrying a `VerifyPayload`, i.e. the account-id resolution
request of `fetchAccountId`. -/
def isVerifyCall (c : Call) : Bool :=
  match c.payload with
  | .verify _ _ _ => true
  | _ => false

/-- States of a client instance reachable from `New` by any sequence of
`GetReadings` calls against arbitrary transports. -/
inductive Reachable : Dexcom → Prop where
  | init (u p : String) : Reachable (New u p)
  | step (t : Transport) (m c : Int) {d : Dexcom} (h : Reachable d) :
      Reachable (GetReadings t d m c).2.1

/-! ## Decimal encoding of a natural number

The spec's round-trip property wraps an epoch-milliseconds value `n` as
the text `Date(n)`; `natRepr` is the standard base-10 writer used for
that wrapper. -/

/-- The decimal digit character for `d` (`d ≤ 9`; larger arguments are
clamped, but are never produced below). -/
def digChar (d : Nat) : Char :=
  match d with
  | 0 => '0' | 1 => '1' | 2 => '2' | 3 => '3' | 4 => '4'
  | 5 => '5' | 6 => '6' | 7 => '7' | 8 => '8' | _ => '9'

/-- Most-significant-first decimal digit characters of `n`. -/
def natToDigitList (n : Nat) : List Char :=
  if n < 10 then [digChar n]
  else natToDigitList (n / 10) ++ [digChar (n % 10)]
decreasing_by exact Nat.div_lt_self (by omega) (by omega)

/-- The decimal representation of `n` as a string. -/
def natRepr (n : Nat) : String := String.mk (natToDigitList n)

lemma digChar_isDigit (d : Nat) : (digChar d).isDigit = true := by
  unfold digChar
  split <;> decide

lemma digitVal_digChar (d : Nat) (h : d < 10) : digitVal (digChar d) = d := by
  interval_cases d <;> decide

lemma digitsVal_append_singleton (l : List Char) (c : Char) :
    digitsVal (l ++ [c]) = digitsVal l * 10 + digitVal c := by
  unfold digitsVal
  rw [List.foldl_append]
  rfl

lemma natToDigitList_spec (n : Nat) :
    natToDigitList n ≠ [] ∧ (∀ c ∈ natToDigitList n, c.isDigit = true) ∧
      digitsVal (natToDigitList n) = n := by
  induction n using Nat.strong_induction_on with
  | _ n ih =>
    rw [natToDigitList]
    split
    · refine ⟨by simp, ?_, ?_⟩
      · intro c hc
        simp only [List.mem_singleton] at hc
        subst hc
        exact digChar_isDigit n
      · show digitsVal [digChar n] = n
        unfold digitsVal
        simp [List.foldl, digitVal_digChar n (by omega)]
    · rename_i h
      have hlt : n / 10 < n := Nat.div_lt_self (by omega) (by omega)
      obtain ⟨-, hdig, hval⟩ := ih (n / 10) hlt
      refine ⟨by simp, ?_, ?_⟩
      · intro c hc
        rcases List.mem_append.mp hc with h1 | h1
        · exact hdig c h1
        · simp only [List.mem_singleton] at h1
          subst h1
          exact digChar_isDigit (n % 10)
      · rw [digitsVal_append_singleton, hval, digitVal_digChar (n % 10) (by omega)]
        omega

/-! ## Decoding a well-formed wrapper -/

lemma takeWhile_append_of_all {p : Char → Bool} (ds l : List Char)
    (h : ∀ c ∈ ds, p c = true) :
    (ds ++ l).takeWhile p = ds ++ l.takeWhile p := by
  induction ds with
  | nil => simp
  | cons c cs ih =>
    have hc : p c = true := h c (by simp)
    have ih2 := ih fun x hx => h x (by simp [hx])
    simp [List.takeWhile_cons, hc, ih2]

lemma dropWhile_append_of_all {p : Char → Bool} (ds l : List Char)
    (h : ∀ c ∈ ds, p c = true) :
    (ds ++ l).dropWhile p = l.dropWhile p := by
  induction ds with
  | nil => simp
  | cons c cs ih =>
    have hc : p c = true := h c (by simp)
    simp only [List.cons_append, List.dropWhile_cons, hc]
    exact ih fun x hx => h x (by simp [hx])

lemma matchDateAt_wrap (ds tail : List Char) (h : ∀ c ∈ ds, c.isDigit = true) :
    matchDateAt ('D' :: 'a' :: 't' :: 'e' :: '(' :: (ds ++ ')' :: tail)) = some ds := by
  have hdrop : (ds ++ ')' :: tail).dropWhile Char.isDigit = ')' :: tail := by
    rw [dropWhile_append_of_all ds (')' :: tail) h]
    rfl
  have htake : (ds ++ ')' :: tail).takeWhile Char.isDigit = ds := by
    rw [takeWhile_append_of_all ds (')' :: tail) h]
    simp [List.takeWhile_cons]
  unfold matchDateAt
  simp only [List.take, List.drop, if_pos rfl, hdrop, htake]
  simp

lemma findDate_wrap (ds tail : List Char) (h : ∀ c ∈ ds, c.isDigit = true) :
    findDate ('D' :: 'a' :: 't' :: 'e' :: '(' :: (ds ++ ')' :: tail)) = some ds := by
  rw [findDate, matchDateAt_wrap ds tail h]

/-- Decoding the exact wrapper `Date(<digits>)` for a nonempty digit run
whose value is in `strconv.Atoi` range yields that value as an instant. -/
lemma convertTimestamp_wrap (ds : List Char) (hne : ds ≠ [])
    (hdig : ∀ c ∈ ds, c.isDigit = true) (hle : digitsVal ds ≤ intMax) :
    convertTimestamp ("Date(" ++ String.mk ds ++ ")") = .ok (timeUnixMilli (digitsVal ds)) := by
  have hdata : ("Date(" ++ String.mk ds ++ ")").data =
      'D' :: 'a' :: 't' :: 'e' :: '(' :: (ds ++ ')' :: []) := by
    rw [String.data_append, String.data_append]
    rfl
  have hatoi : atoiDigits ds = .ok (digitsVal ds) := by
    unfold atoiDigits
    rw [if_neg hne, if_neg (by omega)]
  unfold convertTimestamp
  rw [hdata, findDate_wrap ds [] hdig]
  simp only [hatoi]

/-- Decoding the decimal wrapper built from `n` itself. -/
lemma convertTimestamp_natRepr (n : Nat) (h : n ≤ intMax) :
    convertTimestamp ("Date(" ++ natRepr n ++ ")") = .ok (timeUnixMilli n) := by
  obtain ⟨hne, hdig, hval⟩ := natToDigitList_spec n
  have := convertTimestamp_wrap (natToDigitList n) hne hdig (by rw [hval]; exact h)
  rw [natRepr]
  rw [this, hval]

/-- A string contains a substring of the literal form
`Date(<nonempty digit run>)` somewhere. -/
def containsDateRun (s : String) : Prop :=
  ∃ pre ds post, ds ≠ [] ∧ (∀ c ∈ ds, c.isDigit = true) ∧
    s.data = pre ++ ('D' :: 'a' :: 't' :: 'e' :: '(' :: (ds ++ ')' :: post))

/-! ## Claim theorems: timestamp decoding -/

/-- C4: timestamp decoding is total and never panics — for every input
string `convertTimestamp` returns either a timestamp or a parse error;
when the pattern does not yield exactly one capture group (no match) the
error names the offending raw string, and when the captured digits do not
parse as a valid integer the error names the offending digit string. -/
theorem convertTimestamp_total (wt : String) :
    (∃ gt, convertTimestamp wt = .ok gt) ∨
    (findDate wt.data = none ∧
      convertTimestamp wt = .error ("failed to parse timestamp: " ++ wt)) ∨
    (∃ ds, findDate wt.data = some ds ∧ (atoiDigits ds).isOk = false ∧
      convertTimestamp wt = .error ("invalid timestamp: " ++ String.mk ds)) := by
  cases hf : findDate wt.data with
  | none =>
    right; left
    refine ⟨rfl, ?_⟩
    unfold convertTimestamp
    rw [hf]
  | some ds =>
    cases ha : atoiDigits ds with
    | error e =>
      right; right
      refine ⟨ds, rfl, ?_, ?_⟩
      · rw [ha]; rfl
      · unfold convertTimestamp
        rw [hf]
        simp only [ha]
    | ok n =>
      left
      refine ⟨timeUnixMilli n, ?_⟩
      unfold convertTimestamp
      rw [hf]
      simp only [ha]

/-- C5: every well-formed vendor string `Date(<epoch-ms>)` (digits in
`strconv.Atoi` range) decodes to the instant that many milliseconds after
the Unix epoch; concretely `Date(1609459200000)` decodes to
1609459200000 ms = 2021-01-01T00:00:00Z, while `Date(abc)` and `garbage`
yield parse errors mentioning the input. -/
theorem convertTimestamp_wellFormed (n : Nat) (h : n ≤ intMax) :
    convertTimestamp ("Date(" ++ natRepr n ++ ")") = .ok (timeUnixMilli n) ∧
    convertTimestamp "Date(1609459200000)" = .ok (timeUnixMilli 1609459200000) ∧
    convertTimestamp "Date(abc)" = .error "failed to parse timestamp: Date(abc)" ∧
    convertTimestamp "garbage" = .error "failed to parse timestamp: garbage" :=
  ⟨convertTimestamp_natRepr n h, by rfl, by rfl, by rfl⟩

/-- Witness for C5 at `n = 1609459200000`. -/
theorem convertTimestamp_wellFormed_witness :
    (1609459200000 ≤ intMax) ∧
    (convertTimestamp ("Date(" ++ natRepr 1609459200000 ++ ")") =
        .ok (timeUnixMilli 1609459200000) ∧
      convertTimestamp "Date(1609459200000)" = .ok (timeUnixMilli 1609459200000) ∧
      convertTimestamp "Date(abc)" = .error "failed to parse timestamp: Date(abc)" ∧
      convertTimestamp "garbage" = .error "failed to parse timestamp: garbage") :=
  ⟨by decide, convertTimestamp_wellFormed 1609459200000 (by decide)⟩

/-- C9: round trip — for every non-negative epoch-milliseconds value `n`
in machine-int range, writing `n` in decimal, wrapping it as `Date(n)`
and decoding returns exactly the instant `n` milliseconds after the Unix
epoch. -/
theorem dateWrapper_roundTrip (n : Nat) (h : n ≤ intMax) :
    convertTimestamp ("Date(" ++ natRepr n ++ ")") = .ok (timeUnixMilli n) :=
  convertTimestamp_natRepr n h

/-- Witness for C9 at `n = 42`. -/
theorem dateWrapper_roundTrip_witness :
    (42 ≤ intMax) ∧
    convertTimestamp ("Date(" ++ natRepr 42 ++ ")") = .ok (timeUnixMilli 42) :=
  ⟨by decide, dateWrapper_roundTrip 42 (by decide)⟩

/-- C10 counterexample: `"Date()Date(5)"` contains the substring
`Date(5)` — a `Date(<nonempty digit run>)` occurrence — yet decoding does
not succeed: the unanchored pattern's leftmost match is `Date()` with an
empty capture, so `strconv.Atoi` fails and `convertTimestamp` returns an
error, refuting the claim as stated. -/
theorem unanchored_contains_insufficient :
    containsDateRun "Date()Date(5)" ∧
    convertTimestamp "Date()Date(5)" = .error "invalid timestamp: " := by
  constructor
  · exact ⟨"Date()".data, ['5'], [], by decide, by decide, by decide⟩
  · rfl

/-- C10 amended: the pattern is unanchored — decoding succeeds on any
input whose leftmost `Date(<digit run>)` match has a nonempty digit run
in `strconv.Atoi` range, returning that run's value, regardless of
surrounding non-conforming text; e.g. `xxDate(123)yy` decodes to 123 ms
after the epoch. -/
theorem unanchored_leftmost_match_decodes (s : String) (ds : List Char)
    (h : findDate s.data = some ds) (hne : ds ≠ []) (hle : digitsVal ds ≤ intMax) :
    convertTimestamp s = .ok (timeUnixMilli (digitsVal ds)) ∧
    convertTimestamp "xxDate(123)yy" = .ok (timeUnixMilli 123) := by
  constructor
  · have hatoi : atoiDigits ds = .ok (digitsVal ds) := by
      unfold atoiDigits
      rw [if_neg hne, if_neg (by omega)]
    unfold convertTimestamp
    rw [h]
    simp only [hatoi]
  · rfl

/-- Witness for the amended C10 at `s = "xxDate(123)yy"`. -/
theorem unanchored_leftmost_match_decodes_witness :
    (findDate "xxDate(123)yy".data = some ['1', '2', '3'] ∧
      (['1', '2', '3'] : List Char) ≠ [] ∧ digitsVal ['1', '2', '3'] ≤ intMax) ∧
    (convertTimestamp "xxDate(123)yy" = .ok (timeUnixMilli (digitsVal ['1', '2', '3'])) ∧
      convertTimestamp "xxDate(123)yy" = .ok (timeUnixMilli 123)) :=
  ⟨⟨by decide, by decide, by decide⟩,
    unanchored_leftmost_match_decodes "xxDate(123)yy" ['1', '2', '3']
      (by decide) (by decide) (by decide)⟩

/-! ## Claim theorems: endpoints, handshake and call pattern -/

/-- A transport that answers every account-verification request with a
fixed account id, every session request with a fixed session id, and
every data request with one fixed raw reading. -/
def demoTransport : Transport := fun c =>
  match c.payload with
  | .verify _ _ _ => .ok (.str "acct-1")
  | .auth _ _ _ => .ok (.str "sess-1")
  | .getReadings _ _ _ => .ok (.readings [⟨"Date(1609459200000)", "Flat", 120⟩])

/-- A transport on which the account-id (verify) request fails with a
transport error while every other request would succeed. -/
def failAccountTransport : Transport := fun c =>
  match c.payload with
  | .verify _ _ _ => .error "dial tcp: connection refused"
  | .auth _ _ _ => .ok (.str "sess-1")
  | .getReadings _ _ _ => .ok (.readings [])

/-- A client that already resolved its account id but not its session id,
as after a partial handshake failure. -/
def partialClient : Dexcom :=
  { username := "u", password := "p", accountId := some "acct-1", sessionId := none }

/-- C1 counterexample: the account-id step's one request goes to
`General/AuthenticatePublisherAccount`, not to
`General/LoginPublisherAccountById` as claimed, and the session step's
one request goes to `General/LoginPublisherAccountById`: the two paths
are swapped relative to the claim. -/
theorem endpoints_swapped_counterexample :
    (fetchAccountId demoTransport (New "alice" "pw")).2.2.map Call.endPoint =
      ["General/AuthenticatePublisherAccount"] ∧
    (auth demoTransport partialClient).2.2.map Call.endPoint =
      ["General/LoginPublisherAccountById"] ∧
    ("General/AuthenticatePublisherAccount" : String) ≠ "General/LoginPublisherAccountById" := by
  refine ⟨rfl, rfl, by decide⟩

/-- C1 amended: the AccountId-resolution step sends its request
(accountName, password, applicationId) to the endpoint path
`General/AuthenticatePublisherAccount` (the source's
`dexcomAuthEndpoint`), and the SessionId-resolution step sends its
request (accountId, password, applicationId) to
`General/LoginPublisherAccountById` (the source's
`dexcomLoginEndpoint`). -/
theorem endpoints_of_handshake_steps (t : Transport) (d : Dexcom) (aid : String)
    (h : d.accountId = some aid) :
    (fetchAccountId t d).2.2 =
      [⟨"General/AuthenticatePublisherAccount",
        .verify d.username d.password dexcomApplicationId⟩] ∧
    (auth t d).2.2 =
      [⟨"General/LoginPublisherAccountById",
        .auth aid d.password dexcomApplicationId⟩] := by
  constructor
  · unfold fetchAccountId
    dsimp only
    cases requestStr t dexcomAuthEndpoint
        (Payload.verify d.username d.password dexcomApplicationId) <;> rfl
  · unfold auth
    rw [h]
    dsimp only
    cases requestStr t dexcomLoginEndpoint
        (Payload.auth aid d.password dexcomApplicationId) <;> rfl

/-- Witness for the amended C1 at a concrete transport and client. -/
theorem endpoints_of_handshake_steps_witness :
    (partialClient.accountId = some "acct-1") ∧
    ((fetchAccountId demoTransport partialClient).2.2 =
      [⟨"General/AuthenticatePublisherAccount",
        .verify "u" "p" dexcomApplicationId⟩] ∧
    (auth demoTransport partialClient).2.2 =
      [⟨"General/LoginPublisherAccountById",
        .auth "acct-1" "p" dexcomApplicationId⟩]) :=
  ⟨by decide, endpoints_of_handshake_steps demoTransport partialClient "acct-1" (by decide)⟩

/-- C2 (code bug): on a fresh client whose account-id request fails with
a transport error, `GetReadings` does not return that error — the
handshake's result is discarded (lines 121 and 123 of the source), the
state still has a nil account id, and the unconditional `*d.accountId`
dereference inside `auth` panics.  Only the single failing account-id
call is issued: no session-authentication and no data-fetch request ever
goes out, but the failure surfaces as a nil-pointer panic rather than as
the error value the claim (and the spec's §8 test property) demands. -/
theorem accountIdFailure_panics_not_error :
    GetReadings failAccountTransport (New "u" "p") 10 1 =
      (.panics "runtime error: invalid memory address or nil pointer dereference",
        New "u" "p",
        [⟨dexcomAuthEndpoint, .verify "u" "p" dexcomApplicationId⟩]) := by
  rfl

/-- C3 counterexample: on a client whose account id is already set but
whose session id is unset, `GetReadings` issues no account-id (verify)
request at all — the trace holds only the session-authentication call
and the data call — refuting the claim that step 1 re-runs
unconditionally whenever SessionId is unset. -/
theorem accountIdPresent_skips_step1_counterexample :
    (GetReadings demoTransport partialClient 10 1).2.2.filter isVerifyCall = [] ∧
    (GetReadings demoTransport partialClient 10 1).2.2.map Call.endPoint =
      [dexcomLoginEndpoint, dexcomGetLatestEndpoint] := by
  refine ⟨rfl, rfl⟩

/-! ## Case analyses of the step functions -/

lemma isLoginCall_authEndpoint (p : Payload) :
    isLoginCall ⟨dexcomAuthEndpoint, p⟩ = true := rfl

lemma isLoginCall_loginEndpoint (p : Payload) :
    isLoginCall ⟨dexcomLoginEndpoint, p⟩ = true := rfl

lemma isLoginCall_latestEndpoint (p : Payload) :
    isLoginCall ⟨dexcomGetLatestEndpoint, p⟩ = false := rfl

lemma isDataCall_latestEndpoint (p : Payload) :
    isDataCall ⟨dexcomGetLatestEndpoint, p⟩ = true := rfl

lemma isDataCall_authEndpoint (p : Payload) :
    isDataCall ⟨dexcomAuthEndpoint, p⟩ = false := rfl

lemma isDataCall_loginEndpoint (p : Payload) :
    isDataCall ⟨dexcomLoginEndpoint, p⟩ = false := rfl

lemma isVerifyCall_auth (e a b c : String) :
    isVerifyCall ⟨e, .auth a b c⟩ = false := rfl

lemma isVerifyCall_getReadings (e sid : String) (m c : Int) :
    isVerifyCall ⟨e, .getReadings sid m c⟩ = false := rfl

/-- Complete case analysis of one `GetReadings` call: in every branch,
the exact result state and the exact trace of calls issued. -/
lemma getReadings_cases (t : Transport) (d : Dexcom) (m c : Int) :
    (∃ sid, d.sessionId = some sid ∧
      (GetReadings t d m c).2.1 = d ∧
      (GetReadings t d m c).2.2 = [⟨dexcomGetLatestEndpoint, .getReadings sid m c⟩]) ∨
    (d.sessionId = none ∧ ∃ aid, d.accountId = some aid ∧
      (((GetReadings t d m c).2.1 = d ∧
        (GetReadings t d m c).2.2 =
          [⟨dexcomLoginEndpoint, .auth aid d.password dexcomApplicationId⟩]) ∨
       (∃ sid, (GetReadings t d m c).2.1 = { d with sessionId := some sid } ∧
        (GetReadings t d m c).2.2 =
          [⟨dexcomLoginEndpoint, .auth aid d.password dexcomApplicationId⟩,
           ⟨dexcomGetLatestEndpoint, .getReadings sid m c⟩]))) ∨
    (d.sessionId = none ∧ d.accountId = none ∧
      (((GetReadings t d m c).2.1 = d ∧
        (GetReadings t d m c).2.2 =
          [⟨dexcomAuthEndpoint, .verify d.username d.password dexcomApplicationId⟩]) ∨
       (∃ aid,
         (((GetReadings t d m c).2.1 = { d with accountId := some aid } ∧
           (GetReadings t d m c).2.2 =
             [⟨dexcomAuthEndpoint, .verify d.username d.password dexcomApplicationId⟩,
              ⟨dexcomLoginEndpoint, .auth aid d.password dexcomApplicationId⟩]) ∨
          (∃ sid,
            (GetReadings t d m c).2.1 =
              { d with accountId := some aid, sessionId := some sid } ∧
            (GetReadings t d m c).2.2 =
              [⟨dexcomAuthEndpoint, .verify d.username d.password dexcomApplicationId⟩,
               ⟨dexcomLoginEndpoint, .auth aid d.password dexcomApplicationId⟩,
               ⟨dexcomGetLatestEndpoint, .getReadings sid m c⟩]))))) := by
  by_cases hs : d.sessionId = none
  · right
    unfold GetReadings
    rw [if_pos hs]
    dsimp only
    by_cases ha : d.accountId = none
    · right
      refine ⟨hs, ha, ?_⟩
      rw [if_pos ha]
      unfold fetchAccountId
      dsimp only
      cases hr : requestStr t dexcomAuthEndpoint
          (Payload.verify d.username d.password dexcomApplicationId) with
      | error e =>
        left
        dsimp only
        unfold auth
        rw [ha]
        exact ⟨rfl, by simp⟩
      | ok aid =>
        right
        refine ⟨aid, ?_⟩
        dsimp only
        unfold auth
        dsimp only
        cases hr2 : requestStr t dexcomLoginEndpoint
            (Payload.auth aid d.password dexcomApplicationId) with
        | error e =>
          left
          dsimp only
          unfold GetReadingsFetch
          dsimp only
          rw [hs]
          exact ⟨rfl, by simp⟩
        | ok sid =>
          right
          refine ⟨sid, ?_⟩
          dsimp only
          unfold GetReadingsFetch
          dsimp only
          cases requestReadings t dexcomGetLatestEndpoint
              (Payload.getReadings sid m c) with
          | error e => exact ⟨rfl, by simp⟩
          | ok rvs =>
            dsimp only
            cases convertReadings rvs with
            | error e => exact ⟨rfl, by simp⟩
            | ok grs => exact ⟨rfl, by simp⟩
    · left
      obtain ⟨aid, haid⟩ := Option.ne_none_iff_exists'.mp ha
      refine ⟨hs, aid, haid, ?_⟩
      rw [if_neg ha]
      unfold auth
      rw [haid]
      dsimp only
      cases hr2 : requestStr t dexcomLoginEndpoint
          (Payload.auth aid d.password dexcomApplicationId) with
      | error e =>
        left
        dsimp only
        unfold GetReadingsFetch
        rw [hs]
        exact ⟨rfl, by simp⟩
      | ok sid =>
        right
        refine ⟨sid, ?_⟩
        dsimp only
        unfold GetReadingsFetch
        dsimp only
        cases requestReadings t dexcomGetLatestEndpoint
            (Payload.getReadings sid m c) with
        | error e => exact ⟨rfl, by simp⟩
        | ok rvs =>
          dsimp only
          cases convertReadings rvs with
          | error e => exact ⟨rfl, by simp⟩
          | ok grs => exact ⟨rfl, by simp⟩
  · left
    obtain ⟨sid, hsid⟩ := Option.ne_none_iff_exists'.mp hs
    refine ⟨sid, hsid, ?_⟩
    unfold GetReadings
    rw [if_neg hs]
    unfold GetReadingsFetch
    rw [hsid]
    dsimp only
    cases requestReadings t dexcomGetLatestEndpoint (Payload.getReadings sid m c) with
    | error e => exact ⟨rfl, by simp⟩
    | ok rvs =>
      dsimp only
      cases convertReadings rvs with
      | error e => exact ⟨rfl, by simp⟩
      | ok grs => exact ⟨rfl, by simp⟩

/-- C3 amended: whenever `GetReadings` is called with SessionId unset,
step 1 (AccountId resolution) runs only when AccountId is also unset;
when AccountId is already set from a prior partial failure, step 1 is
skipped and the handshake proceeds directly to step 2, whose
session-authentication request is the first call issued. -/
theorem accountIdPresent_skips_step1 (t : Transport) (d : Dexcom) (m c : Int)
    (aid : String) (hs : d.sessionId = none) (ha : d.accountId = some aid) :
    (GetReadings t d m c).2.2.filter isVerifyCall = [] ∧
    ∃ rest, (GetReadings t d m c).2.2 =
      ⟨dexcomLoginEndpoint, .auth aid d.password dexcomApplicationId⟩ :: rest := by
  rcases getReadings_cases t d m c with
    ⟨sid, hsid, -, -⟩ | ⟨-, aid2, ha2, hsub⟩ | ⟨-, ha2, -⟩
  · rw [hs] at hsid
    exact absurd hsid (by simp)
  · have haid : aid2 = aid := by
      rw [ha] at ha2
      exact (Option.some_inj.mp ha2).symm
    subst haid
    rcases hsub with ⟨-, h2⟩ | ⟨sid, -, h2⟩
    · rw [h2]
      exact ⟨by simp [List.filter, isVerifyCall_auth], [], rfl⟩
    · rw [h2]
      refine ⟨?_, [⟨dexcomGetLatestEndpoint, .getReadings sid m c⟩], rfl⟩
      simp [List.filter, isVerifyCall_auth, isVerifyCall_getReadings]
  · rw [ha] at ha2
    exact absurd ha2 (by simp)

/-- Witness for the amended C3 at a concrete transport and client. -/
theorem accountIdPresent_skips_step1_witness :
    (partialClient.sessionId = none ∧ partialClient.accountId = some "acct-1") ∧
    ((GetReadings demoTransport partialClient 10 1).2.2.filter isVerifyCall = [] ∧
      ∃ rest, (GetReadings demoTransport partialClient 10 1).2.2 =
        ⟨dexcomLoginEndpoint, .auth "acct-1" partialClient.password dexcomApplicationId⟩ :: rest) :=
  ⟨⟨rfl, rfl⟩, accountIdPresent_skips_step1 demoTransport partialClient 10 1 "acct-1" rfl rfl⟩

/-! ## Evaluation lemmas for a fully successful transport -/

/-- A fresh client under a transport where all three requests succeed:
the exact result, state and trace. -/
lemma getReadings_fresh_eval (t : Transport) (u p aid sid : String)
    (rs : List RawReading) (grs : List GlucoseReading) (m c : Int)
    (hA : t ⟨dexcomAuthEndpoint, .verify u p dexcomApplicationId⟩ = .ok (.str aid))
    (hS : t ⟨dexcomLoginEndpoint, .auth aid p dexcomApplicationId⟩ = .ok (.str sid))
    (hD : t ⟨dexcomGetLatestEndpoint, .getReadings sid m c⟩ = .ok (.readings rs))
    (hC : convertReadings rs = .ok grs) :
    GetReadings t (New u p) m c =
      (.ok grs,
        { username := u, password := p, accountId := some aid, sessionId := some sid },
        [⟨dexcomAuthEndpoint, .verify u p dexcomApplicationId⟩,
         ⟨dexcomLoginEndpoint, .auth aid p dexcomApplicationId⟩,
         ⟨dexcomGetLatestEndpoint, .getReadings sid m c⟩]) := by
  have h1 : requestStr t dexcomAuthEndpoint (.verify u p dexcomApplicationId) = .ok aid := by
    unfold requestStr
    rw [hA]
  have h2 : requestStr t dexcomLoginEndpoint (.auth aid p dexcomApplicationId) = .ok sid := by
    unfold requestStr
    rw [hS]
  have h3 : requestReadings t dexcomGetLatestEndpoint (.getReadings sid m c) = .ok rs := by
    unfold requestReadings
    rw [hD]
  simp only [GetReadings, New, fetchAccountId, auth, GetReadingsFetch,
    h1, h2, h3, hC]
  simp [h2, h3, hC]

/-- A client with a cached session id under a transport where the data
request succeeds: the exact result, state and trace (no login calls). -/
lemma getReadings_cached_eval (t : Transport) (d : Dexcom) (sid : String)
    (m c : Int) (rs : List RawReading) (grs : List GlucoseReading)
    (hsid : d.sessionId = some sid)
    (hD : t ⟨dexcomGetLatestEndpoint, .getReadings sid m c⟩ = .ok (.readings rs))
    (hC : convertReadings rs = .ok grs) :
    GetReadings t d m c =
      (.ok grs, d, [⟨dexcomGetLatestEndpoint, .getReadings sid m c⟩]) := by
  have h3 : requestReadings t dexcomGetLatestEndpoint (.getReadings sid m c) = .ok rs := by
    unfold requestReadings
    rw [hD]
  unfold GetReadings
  rw [if_neg (by rw [hsid]; simp)]
  unfold GetReadingsFetch
  rw [hsid]
  simp only [h3, hC]
  rfl

/-- C6: under a transport where every request succeeds, the first
`GetReadings` call on a fresh client issues exactly two login-related
calls — the account-id resolution, then the session authentication — and
then exactly one data-fetch call; a second `GetReadings` call on the
resulting instance issues zero login-related calls and exactly one
data-fetch call. -/
theorem firstCall_two_logins_one_data_then_reuse (t : Transport)
    (u p aid sid : String) (rs : List RawReading) (grs : List GlucoseReading)
    (m c : Int)
    (hA : t ⟨dexcomAuthEndpoint, .verify u p dexcomApplicationId⟩ = .ok (.str aid))
    (hS : t ⟨dexcomLoginEndpoint, .auth aid p dexcomApplicationId⟩ = .ok (.str sid))
    (hD : t ⟨dexcomGetLatestEndpoint, .getReadings sid m c⟩ = .ok (.readings rs))
    (hC : convertReadings rs = .ok grs) :
    (GetReadings t (New u p) m c).2.2.map Call.endPoint =
      [dexcomAuthEndpoint, dexcomLoginEndpoint, dexcomGetLatestEndpoint] ∧
    ((GetReadings t (New u p) m c).2.2.filter isLoginCall).length = 2 ∧
    ((GetReadings t (New u p) m c).2.2.filter isDataCall).length = 1 ∧
    ((GetReadings t (GetReadings t (New u p) m c).2.1 m c).2.2.filter isLoginCall).length = 0 ∧
    ((GetReadings t (GetReadings t (New u p) m c).2.1 m c).2.2.filter isDataCall).length = 1 := by
  have hfresh := getReadings_fresh_eval t u p aid sid rs grs m c hA hS hD hC
  have hsecond := getReadings_cached_eval t
    { username := u, password := p, accountId := some aid, sessionId := some sid }
    sid m c rs grs rfl hD hC
  rw [hfresh]
  dsimp only
  rw [hsecond]
  refine ⟨rfl, ?_, ?_, ?_, ?_⟩ <;>
    simp [List.filter, isLoginCall_authEndpoint, isLoginCall_loginEndpoint,
      isLoginCall_latestEndpoint, isDataCall_latestEndpoint,
      isDataCall_authEndpoint, isDataCall_loginEndpoint]

/-- Witness for C6 at the demo transport and concrete credentials. -/
theorem firstCall_two_logins_one_data_then_reuse_witness :
    (demoTransport ⟨dexcomAuthEndpoint, .verify "u" "p" dexcomApplicationId⟩ =
        .ok (.str "acct-1") ∧
      demoTransport ⟨dexcomLoginEndpoint, .auth "acct-1" "p" dexcomApplicationId⟩ =
        .ok (.str "sess-1") ∧
      demoTransport ⟨dexcomGetLatestEndpoint, .getReadings "sess-1" 10 1⟩ =
        .ok (.readings [⟨"Date(1609459200000)", "Flat", 120⟩]) ∧
      convertReadings [⟨"Date(1609459200000)", "Flat", 120⟩] =
        .ok [⟨timeUnixMilli 1609459200000, 120, "Flat"⟩]) ∧
    ((GetReadings demoTransport (New "u" "p") 10 1).2.2.map Call.endPoint =
        [dexcomAuthEndpoint, dexcomLoginEndpoint, dexcomGetLatestEndpoint] ∧
      ((GetReadings demoTransport (New "u" "p") 10 1).2.2.filter isLoginCall).length = 2 ∧
      ((GetReadings demoTransport (New "u" "p") 10 1).2.2.filter isDataCall).length = 1 ∧
      ((GetReadings demoTransport
          (GetReadings demoTransport (New "u" "p") 10 1).2.1 10 1).2.2.filter
            isLoginCall).length = 0 ∧
      ((GetReadings demoTransport
          (GetReadings demoTransport (New "u" "p") 10 1).2.1 10 1).2.2.filter
            isDataCall).length = 1) :=
  ⟨⟨rfl, rfl, rfl, rfl⟩,
    firstCall_two_logins_one_data_then_reuse demoTransport "u" "p" "acct-1" "sess-1"
      [⟨"Date(1609459200000)", "Flat", 120⟩] [⟨timeUnixMilli 1609459200000, 120, "Flat"⟩]
      10 1 rfl rfl rfl rfl⟩

/-! ## C7: the conversion of the vendor list -/

/-- A raw vendor record and the glucose reading produced from it: value
and trend copied unchanged, time obtained by decoding the WT string. -/
def ConvertsTo (rv : RawReading) (gr : GlucoseReading) : Prop :=
  convertTimestamp rv.Time = .ok gr.Time ∧ gr.Value = rv.Value ∧ gr.Trend = rv.Trend

lemma convertReadings_ok_of_all (rs : List RawReading)
    (h : ∀ rv ∈ rs, ∃ gt, convertTimestamp rv.Time = .ok gt) :
    ∃ grs, convertReadings rs = .ok grs ∧ List.Forall₂ ConvertsTo rs grs := by
  induction rs with
  | nil => exact ⟨[], rfl, List.Forall₂.nil⟩
  | cons rv rest ih =>
    obtain ⟨gt, hgt⟩ := h rv (by simp)
    obtain ⟨grs, hgrs, hfa⟩ := ih fun x hx => h x (by simp [hx])
    refine ⟨⟨gt, rv.Value, rv.Trend⟩ :: grs, ?_, ?_⟩
    · simp only [convertReadings, hgt, hgrs]
    · exact List.Forall₂.cons ⟨hgt, rfl, rfl⟩ hfa

/-- A client with an already-cached session id. -/
def sessionClient : Dexcom :=
  { username := "u", password := "p", accountId := some "acct-1",
    sessionId := some "sess-1" }

/-- C7: for a client with a resolved session and a vendor response list
whose every record decodes, `GetReadings` returns exactly one
`GlucoseReading` per raw record in the vendor's order (`List.Forall₂`
pairs the two lists positionally), with value and trend copied unchanged
and time obtained by decoding WT; an empty vendor list yields an empty
readings sequence, not an error. -/
theorem readings_map_vendor_order (t : Transport) (d : Dexcom) (sid : String)
    (m c : Int) (rs : List RawReading)
    (hsid : d.sessionId = some sid)
    (hD : t ⟨dexcomGetLatestEndpoint, .getReadings sid m c⟩ = .ok (.readings rs))
    (hAll : ∀ rv ∈ rs, ∃ gt, convertTimestamp rv.Time = .ok gt) :
    ∃ grs, (GetReadings t d m c).1 = .ok grs ∧ List.Forall₂ ConvertsTo rs grs ∧
      (rs = [] → grs = []) := by
  obtain ⟨grs, hok, hfa⟩ := convertReadings_ok_of_all rs hAll
  have heval := getReadings_cached_eval t d sid m c rs grs hsid hD hok
  refine ⟨grs, by rw [heval], hfa, fun hnil => ?_⟩
  subst hnil
  cases hfa
  rfl

/-- Witness for C7: the spec's one-record example, on a client with a
cached session. -/
theorem readings_map_vendor_order_witness :
    (sessionClient.sessionId = some "sess-1" ∧
      demoTransport ⟨dexcomGetLatestEndpoint, .getReadings "sess-1" 10 1⟩ =
        .ok (.readings [⟨"Date(1609459200000)", "Flat", 120⟩]) ∧
      (∀ rv ∈ [(⟨"Date(1609459200000)", "Flat", 120⟩ : RawReading)],
        ∃ gt, convertTimestamp rv.Time = .ok gt)) ∧
    (∃ grs, (GetReadings demoTransport sessionClient 10 1).1 = .ok grs ∧
      List.Forall₂ ConvertsTo [⟨"Date(1609459200000)", "Flat", 120⟩] grs ∧
      (([(⟨"Date(1609459200000)", "Flat", 120⟩ : RawReading)] = []) → grs = [])) := by
  have hAll : ∀ rv ∈ [(⟨"Date(1609459200000)", "Flat", 120⟩ : RawReading)],
      ∃ gt, convertTimestamp rv.Time = .ok gt := by
    intro rv hrv
    rw [List.mem_singleton] at hrv
    subst hrv
    exact ⟨timeUnixMilli 1609459200000, rfl⟩
  obtain ⟨grs, h1, h2, h3⟩ := readings_map_vendor_order demoTransport sessionClient
    "sess-1" 10 1 [⟨"Date(1609459200000)", "Flat", 120⟩] rfl rfl hAll
  exact ⟨⟨rfl, rfl, hAll⟩, grs, h1, h2, h3⟩

/-! ## C8: credential lifecycle invariants -/

/-- One `GetReadings` step, from any state: an already-set account id is
never changed, an already-set session id is never changed, the
session-implies-account invariant is preserved, a cached session means no
login-related call is issued, and a data-fetch call is issued only when
the session id is resolved. -/
lemma getReadings_step_invariants (t : Transport) (d : Dexcom) (m c : Int) :
    (∀ x, d.accountId = some x → ((GetReadings t d m c).2.1).accountId = some x) ∧
    (∀ x, d.sessionId = some x → ((GetReadings t d m c).2.1).sessionId = some x) ∧
    ((d.sessionId ≠ none → d.accountId ≠ none) →
      ((GetReadings t d m c).2.1).sessionId ≠ none →
        ((GetReadings t d m c).2.1).accountId ≠ none) ∧
    (∀ x, d.sessionId = some x → (GetReadings t d m c).2.2.filter isLoginCall = []) ∧
    ((∃ call ∈ (GetReadings t d m c).2.2, isDataCall call = true) →
      ((GetReadings t d m c).2.1).sessionId ≠ none) := by
  rcases getReadings_cases t d m c with
    ⟨sid, hsid, hst, htr⟩ |
    ⟨hs, aid, ha, ⟨hst, htr⟩ | ⟨sid, hst, htr⟩⟩ |
    ⟨hs, ha, ⟨hst, htr⟩ | ⟨aid, ⟨hst, htr⟩ | ⟨sid, hst, htr⟩⟩⟩ <;>
      rw [hst, htr] <;> refine ⟨?_, ?_, ?_, ?_, ?_⟩
  · exact fun x hx => hx
  · exact fun x hx => hx
  · exact fun hgood => hgood
  · intro x hx
    simp [List.filter, isLoginCall_latestEndpoint]
  · intro h
    rw [hsid]
    simp
  · exact fun x hx => hx
  · exact fun x hx => hx
  · intro hgood hpost
    exact absurd hs (by intro hc; exact hpost (by rw [hc]))
  · intro x hx
    rw [hs] at hx
    exact absurd hx (by simp)
  · intro hcall
    obtain ⟨call, hmem, hdata⟩ := hcall
    rw [List.mem_singleton] at hmem
    subst hmem
    rw [isDataCall_loginEndpoint] at hdata
    exact absurd hdata (by simp)
  · intro x hx
    simpa using hx
  · intro x hx
    rw [hs] at hx
    exact absurd hx (by simp)
  · intro hgood hpost
    simp [ha]
  · intro x hx
    rw [hs] at hx
    exact absurd hx (by simp)
  · intro hcall
    simp
  · exact fun x hx => hx
  · exact fun x hx => hx
  · intro hgood hpost
    exact absurd hs (by intro hc; exact hpost (by rw [hc]))
  · intro x hx
    rw [hs] at hx
    exact absurd hx (by simp)
  · intro hcall
    obtain ⟨call, hmem, hdata⟩ := hcall
    rw [List.mem_singleton] at hmem
    subst hmem
    rw [isDataCall_authEndpoint] at hdata
    exact absurd hdata (by simp)
  · intro x hx
    rw [ha] at hx
    exact absurd hx (by simp)
  · intro x hx
    rw [hs] at hx
    exact absurd hx (by simp)
  · intro hgood hpost
    exact absurd hs (by intro hc; exact hpost (by rw [hc]))
  · intro x hx
    rw [hs] at hx
    exact absurd hx (by simp)
  · intro hcall
    obtain ⟨call, hmem, hdata⟩ := hcall
    rcases List.mem_cons.mp hmem with h1 | h1
    · subst h1
      rw [isDataCall_authEndpoint] at hdata
      exact absurd hdata (by simp)
    · rw [List.mem_singleton] at h1
      subst h1
      rw [isDataCall_loginEndpoint] at hdata
      exact absurd hdata (by simp)
  · intro x hx
    rw [ha] at hx
    exact absurd hx (by simp)
  · intro x hx
    rw [hs] at hx
    exact absurd hx (by simp)
  · intro hgood hpost
    simp
  · intro x hx
    rw [hs] at hx
    exact absurd hx (by simp)
  · intro hcall
    simp

/-- C8: in every reachable state of a client instance, a resolved
SessionId implies a resolved AccountId (SessionId only after AccountId);
one further `GetReadings` step never changes an already-set AccountId or
SessionId (populated at most once, never refreshed or reset); with a
cached SessionId no login-related call is issued (lazy population); and a
data-fetch call occurs only with the SessionId resolved. -/
theorem credential_lifecycle_invariants (d : Dexcom) (h : Reachable d) :
    (d.sessionId ≠ none → d.accountId ≠ none) ∧
    ∀ t (m c : Int),
      (∀ x, d.accountId = some x → ((GetReadings t d m c).2.1).accountId = some x) ∧
      (∀ x, d.sessionId = some x → ((GetReadings t d m c).2.1).sessionId = some x) ∧
      (∀ x, d.sessionId = some x → (GetReadings t d m c).2.2.filter isLoginCall = []) ∧
      ((∃ call ∈ (GetReadings t d m c).2.2, isDataCall call = true) →
        ((GetReadings t d m c).2.1).sessionId ≠ none) := by
  have hGood : d.sessionId ≠ none → d.accountId ≠ none := by
    induction h with
    | init u p => simp [New]
    | step t m c h ih =>
      rename_i d0
      exact (getReadings_step_invariants t d0 m c).2.2.1 ih
  refine ⟨hGood, fun t m c => ?_⟩
  obtain ⟨h1, h2, -, h4, h5⟩ := getReadings_step_invariants t d m c
  exact ⟨h1, h2, h4, h5⟩

/-- Witness for C8 at the freshly constructed client. -/
theorem credential_lifecycle_invariants_witness :
    ((New "u" "p").sessionId ≠ none → (New "u" "p").accountId ≠ none) ∧
    ∀ t (m c : Int),
      (∀ x, (New "u" "p").accountId = some x →
        ((GetReadings t (New "u" "p") m c).2.1).accountId = some x) ∧
      (∀ x, (New "u" "p").sessionId = some x →
        ((GetReadings t (New "u" "p") m c).2.1).sessionId = some x) ∧
      (∀ x, (New "u" "p").sessionId = some x →
        (GetReadings t (New "u" "p") m c).2.2.filter isLoginCall = []) ∧
      ((∃ call ∈ (GetReadings t (New "u" "p") m c).2.2, isDataCall call = true) →
        ((GetReadings t (New "u" "p") m c).2.1).sessionId ≠ none) :=
  credential_lifecycle_invariants (New "u" "p") (Reachable.init "u" "p")

end Dexgo
